import Mathlib

/-!
Verification development for the domain-checker program
(`src/domain-checker.py`), a shallow embedding of its reconciliation
pipeline: per-domain classification (`check_single_domain`), the fan-out
over all domains (`check_domains`), the mismatch probe
(`save_file_and_upload`), the HTTP status sampler (`check_status`), the
status merge (`check_domain_statuses`), result aggregation
(`save_results`) and the top-level driver (`main`).

Side effects (DNS resolution, filesystem, subprocesses, HTTP) are
modelled by explicit oracles and explicit state passing; list appends
mirror the Python `list.append` calls, and the status tuples mirror the
Python 4-tuples `(domain, status, ip, http_status)` literally, including
the status strings "Direct", "Healthy", "Mismatched", "No Ping".
-/

namespace DomainChecker

/-- Oracle environment for one run: the server's own IP (resolved once at
startup), the discovered `(domain, document-root)` pairs
(`DomainManager.domain_paths`; the root is `Option` since cPanel lookup can
yield `None`), the per-domain DNS resolver (`get_domain_ip`: `none` models a
caught `socket.gaierror`), the mismatch probe outcome (`save_file_and_upload`
return value for given arguments), and the HTTP status sampler outcome
(`check_status` return value; `none` models a request exception). -/
structure Env where
  serverIP : String
  domain_paths : List (String × Option String)
  resolveIP : String → Option String
  probe : String → Option String → Bool
  sample : String → Option String

/-- Discovered domain names, in discovery order: `DomainManager.domains`
is populated with exactly the first component of each `domain_paths`
entry, in both the cPanel and the DirectAdmin discovery variants. -/
def domains (env : Env) : List String :=
  env.domain_paths.map Prod.fst

/-- Embedding of `DomainManager.get_domain_path`: first entry whose name
matches, returning its (optional) path; `none` when the domain is absent
or its recorded path is `None`. -/
def get_domain_path (env : Env) (domain : String) : Option String :=
  (env.domain_paths.find? (fun p => p.1 = domain)).bind Prod.snd

/-- Status tuple `(domain, status, ip, http_status)` as appended to
`self.domain_statuses`. -/
abbrev StatusTuple := String × String × Option String × Option String

/-- Mutable state of `DomainStatusChecker`: the four category lists, the
status tuples, plus `probeCalls`, a ghost trace recording every argument
pair passed to `save_file_and_upload` (used to state that the probe is
never invoked on the Direct branch). -/
structure CheckerState where
  mismatched_domains : List String
  healthy_domains : List String
  direct_domains : List String
  no_ping_domains : List String
  domain_statuses : List StatusTuple
  probeCalls : List (String × Option String)
deriving Repr, DecidableEq

/-- Initial `DomainStatusChecker` state: all lists empty. -/
def initState : CheckerState :=
  ⟨[], [], [], [], [], []⟩

/-- Embedding of `DomainStatusChecker.check_single_domain`: resolve the
domain's IP; unresolvable → "No Ping"; equal to the server IP → "Direct";
otherwise invoke `save_file_and_upload` with the domain's document root
and classify "Healthy" on `true`, "Mismatched" on `false`. Appends to the
category list and to `domain_statuses` exactly as the Python appends do
(http_status always `None` at this phase). -/
def check_single_domain (env : Env) (st : CheckerState) (domain : String) : CheckerState :=
  match env.resolveIP domain with
  | some domain_ip =>
    if domain_ip = env.serverIP then
      { st with direct_domains := st.direct_domains ++ [domain],
                domain_statuses := st.domain_statuses ++ [(domain, "Direct", some domain_ip, none)] }
    else
      let domain_path := get_domain_path env domain
      let st1 := { st with probeCalls := st.probeCalls ++ [(domain, domain_path)] }
      if env.probe domain domain_path then
        { st1 with healthy_domains := st1.healthy_domains ++ [domain],
                   domain_statuses := st1.domain_statuses ++ [(domain, "Healthy", some domain_ip, none)] }
      else
        { st1 with mismatched_domains := st1.mismatched_domains ++ [domain],
                   domain_statuses := st1.domain_statuses ++ [(domain, "Mismatched", some domain_ip, none)] }
  | none =>
    { st with no_ping_domains := st.no_ping_domains ++ [domain],
              domain_statuses := st.domain_statuses ++ [(domain, "No Ping", none, none)] }

/-- Classification a domain receives from `check_single_domain`, as the
status string the code stores ("No Ping" is the code's name for the
spec's Unresolvable class). -/
def classify (env : Env) (domain : String) : String :=
  match env.resolveIP domain with
  | some domain_ip =>
    if domain_ip = env.serverIP then "Direct"
    else if env.probe domain (get_domain_path env domain) then "Healthy"
    else "Mismatched"
  | none => "No Ping"

/-- Does `check_single_domain` reach the probe for this domain (resolved,
and the IP differs from the server's)? -/
def probeNeeded (env : Env) (domain : String) : Bool :=
  match env.resolveIP domain with
  | some domain_ip => decide (domain_ip ≠ env.serverIP)
  | none => false

/-- Embedding of `DomainStatusChecker.check_domains`: run
`check_single_domain` over every discovered domain. The thread pool
fan-out is modelled sequentially: each task only appends its own
domain's entries, and the final aggregate is the same multiset of
appends. -/
def check_domains (env : Env) : CheckerState :=
  (domains env).foldl (check_single_domain env) initState

/-- Single-step normal form of `check_single_domain`: it extends exactly
the category list named by `classify`, appends exactly one status tuple
carrying `classify` and the resolved IP, and records a probe call iff
the mismatch branch was reached. -/
theorem check_single_domain_eq (env : Env) (st : CheckerState) (d : String) :
    check_single_domain env st d =
      { mismatched_domains := st.mismatched_domains ++ (if classify env d = "Mismatched" then [d] else []),
        healthy_domains := st.healthy_domains ++ (if classify env d = "Healthy" then [d] else []),
        direct_domains := st.direct_domains ++ (if classify env d = "Direct" then [d] else []),
        no_ping_domains := st.no_ping_domains ++ (if classify env d = "No Ping" then [d] else []),
        domain_statuses := st.domain_statuses ++ [(d, classify env d, env.resolveIP d, none)],
        probeCalls := st.probeCalls ++ (if probeNeeded env d then [(d, get_domain_path env d)] else []) } := by
  cases h : env.resolveIP d with
  | none =>
    simp [check_single_domain, classify, probeNeeded, h]
  | some ip =>
    by_cases hip : ip = env.serverIP
    · simp [check_single_domain, classify, probeNeeded, h, hip]
    · by_cases hp : env.probe d (get_domain_path env d)
      · simp [check_single_domain, classify, probeNeeded, h, hip, hp]
      · simp [check_single_domain, classify, probeNeeded, h, hip, hp]

/-- Normal form of the `check_domains` fold from an arbitrary starting
state: each category list collects, in input order, the input domains
whose `classify` equals that category; `domain_statuses` collects one
tuple per input domain in input order; `probeCalls` collects one call
per domain that reaches the mismatch branch. -/
theorem foldl_check_single_domain (env : Env) (ds : List String) (st : CheckerState) :
    ds.foldl (check_single_domain env) st =
      { mismatched_domains := st.mismatched_domains ++ ds.filter (fun x => classify env x = "Mismatched"),
        healthy_domains := st.healthy_domains ++ ds.filter (fun x => classify env x = "Healthy"),
        direct_domains := st.direct_domains ++ ds.filter (fun x => classify env x = "Direct"),
        no_ping_domains := st.no_ping_domains ++ ds.filter (fun x => classify env x = "No Ping"),
        domain_statuses := st.domain_statuses ++ ds.map (fun x => (x, classify env x, env.resolveIP x, none)),
        probeCalls := st.probeCalls ++ (ds.filter (fun x => probeNeeded env x)).map (fun x => (x, get_domain_path env x)) } := by
  induction ds generalizing st with
  | nil => simp
  | cons d ds ih =>
    rw [List.foldl_cons, ih, check_single_domain_eq]
    simp only [List.filter_cons, List.map_cons]
    by_cases h1 : classify env d = "Mismatched" <;>
      by_cases h2 : classify env d = "Healthy" <;>
        by_cases h3 : classify env d = "Direct" <;>
          by_cases h4 : classify env d = "No Ping" <;>
            by_cases h5 : probeNeeded env d <;>
              simp_all

/-- Helper: `classify` always returns one of the four status strings. -/
theorem classify_cases (env : Env) (d : String) :
    classify env d = "Direct" ∨ classify env d = "Healthy" ∨
      classify env d = "Mismatched" ∨ classify env d = "No Ping" := by
  unfold classify
  cases env.resolveIP d with
  | none => simp
  | some ip =>
    by_cases h : ip = env.serverIP
    · simp [h]
    · by_cases hp : env.probe d (get_domain_path env d) <;> simp [h, hp]

/-- Concrete test fixture: server IP 10.0.0.5; `a.example` resolves to the
server's IP, `b.example` and `d.example` resolve elsewhere (probe succeeds
only for `b.example`), `c.example` does not resolve. -/
def testEnv : Env where
  serverIP := "10.0.0.5"
  domain_paths := [("a.example", some "/home/a/public_html"),
                   ("b.example", some "/home/b/public_html"),
                   ("d.example", some "/home/d/public_html"),
                   ("c.example", none)]
  resolveIP := fun d =>
    if d = "a.example" then some "10.0.0.5"
    else if d = "b.example" then some "203.0.113.9"
    else if d = "d.example" then some "203.0.113.7"
    else none
  probe := fun d _ => d = "b.example"
  sample := fun d =>
    if d = "a.example" then some "200"
    else if d = "b.example" then some "404"
    else none

/-- C1: for a domain whose resolved IP differs from the server's IP,
`check_single_domain` appends it to `healthy_domains` with a "Healthy"
status tuple exactly when `save_file_and_upload` (the probe) returns
`true` for the domain and its document root, and appends it to
`mismatched_domains` with a "Mismatched" tuple exactly when the probe
returns `false`. -/
theorem mismatch_branch_classification (env : Env) (st : CheckerState) (domain ip : String)
    (h1 : env.resolveIP domain = some ip) (h2 : ip ≠ env.serverIP) :
    (((check_single_domain env st domain).healthy_domains = st.healthy_domains ++ [domain] ∧
      (check_single_domain env st domain).domain_statuses =
        st.domain_statuses ++ [(domain, "Healthy", some ip, none)]) ↔
      env.probe domain (get_domain_path env domain) = true) ∧
    (((check_single_domain env st domain).mismatched_domains = st.mismatched_domains ++ [domain] ∧
      (check_single_domain env st domain).domain_statuses =
        st.domain_statuses ++ [(domain, "Mismatched", some ip, none)]) ↔
      env.probe domain (get_domain_path env domain) = false) := by
  by_cases hp : env.probe domain (get_domain_path env domain) <;>
    simp [check_single_domain, h1, h2, hp]

/-- Witness for C1 at the concrete fixture: `b.example` resolves off-server
and its probe succeeds, so it lands in `healthy_domains`. -/
theorem mismatch_branch_classification_witness :
    (check_single_domain testEnv initState "b.example").healthy_domains =
      initState.healthy_domains ++ ["b.example"] := by
  have h := mismatch_branch_classification testEnv initState "b.example" "203.0.113.9"
    (by decide) (by decide)
  exact (h.1.mpr (by decide)).1

/-- C2: for a domain whose resolved IP equals the server's IP,
`check_single_domain` classifies it exactly "Direct" (appending it to
`direct_domains` and appending a "Direct" status tuple, all other fields
unchanged), and the probe is never invoked: the ghost trace of
`save_file_and_upload` calls is unchanged, so no marker file is written
and no upload is attempted for that domain. -/
theorem direct_branch_classification (env : Env) (st : CheckerState) (domain ip : String)
    (h1 : env.resolveIP domain = some ip) (h2 : ip = env.serverIP) :
    check_single_domain env st domain =
      { st with direct_domains := st.direct_domains ++ [domain],
                domain_statuses := st.domain_statuses ++ [(domain, "Direct", some ip, none)] } ∧
    (check_single_domain env st domain).probeCalls = st.probeCalls := by
  constructor <;> simp [check_single_domain, h1, h2]

/-- Witness for C2 at the concrete fixture: `a.example` resolves to the
server's own IP, is classified Direct, and triggers no probe call. -/
theorem direct_branch_classification_witness :
    (check_single_domain testEnv initState "a.example").direct_domains =
      initState.direct_domains ++ ["a.example"] ∧
    (check_single_domain testEnv initState "a.example").probeCalls = initState.probeCalls := by
  have h := direct_branch_classification testEnv initState "a.example" "10.0.0.5"
    (by decide) (by decide)
  exact ⟨by rw [h.1], h.2⟩

/-- C3: after `check_domains`, a domain name is in one of the four
category lists iff it was an input domain, and the four lists are
pairwise disjoint: every discovered domain is classified into exactly
one category. -/
theorem classification_partition (env : Env) (d : String) :
    ((d ∈ (check_domains env).direct_domains ∨ d ∈ (check_domains env).healthy_domains ∨
      d ∈ (check_domains env).mismatched_domains ∨ d ∈ (check_domains env).no_ping_domains) ↔
      d ∈ domains env) ∧
    (d ∈ (check_domains env).direct_domains → d ∉ (check_domains env).healthy_domains ∧
      d ∉ (check_domains env).mismatched_domains ∧ d ∉ (check_domains env).no_ping_domains) ∧
    (d ∈ (check_domains env).healthy_domains → d ∉ (check_domains env).mismatched_domains ∧
      d ∉ (check_domains env).no_ping_domains) ∧
    (d ∈ (check_domains env).mismatched_domains → d ∉ (check_domains env).no_ping_domains) := by
  have hc := classify_cases env d
  simp only [check_domains, foldl_check_single_domain, initState, List.nil_append,
    List.mem_filter, decide_eq_true_eq]
  have key : ∀ s t : String, s ≠ t → (d ∈ domains env ∧ classify env d = s) →
      ¬(d ∈ domains env ∧ classify env d = t) :=
    fun s t hst h1 h2 => hst (h1.2.symm.trans h2.2)
  refine ⟨⟨?_, ?_⟩, ?_, ?_, ?_⟩
  · rintro (⟨h, _⟩ | ⟨h, _⟩ | ⟨h, _⟩ | ⟨h, _⟩) <;> exact h
  · intro h
    rcases hc with hc | hc | hc | hc
    · exact Or.inl ⟨h, hc⟩
    · exact Or.inr (Or.inl ⟨h, hc⟩)
    · exact Or.inr (Or.inr (Or.inl ⟨h, hc⟩))
    · exact Or.inr (Or.inr (Or.inr ⟨h, hc⟩))
  · exact fun h => ⟨key _ _ (by decide) h, key _ _ (by decide) h, key _ _ (by decide) h⟩
  · exact fun h => ⟨key _ _ (by decide) h, key _ _ (by decide) h⟩
  · exact fun h => key _ _ (by decide) h

/-- Witness for C3 at the concrete fixture: `b.example` is classified into
the Healthy list and into no other list. -/
theorem classification_partition_witness :
    "b.example" ∈ (check_domains testEnv).healthy_domains ∧
    "b.example" ∉ (check_domains testEnv).mismatched_domains ∧
    "b.example" ∉ (check_domains testEnv).no_ping_domains := by
  have h1 : "b.example" ∈ (check_domains testEnv).healthy_domains := by decide
  exact ⟨h1, (classification_partition testEnv "b.example").2.2.1 h1⟩

/-- Model of a non-error HTTP response as far as `check_status` reads it:
the numeric status code and the `href` attributes of the `<link href=...>`
tags BeautifulSoup finds in the body. -/
structure HttpResponse where
  status : Nat
  linkHrefs : List String
deriving Repr, DecidableEq

/-- Substring test modelling Python's `'autoindex.css' in link['href']`:
some suffix of `s` starts with `pat`. -/
def containsSub (s pat : String) : Bool :=
  s.data.tails.any (fun t => pat.data.isPrefixOf t)

/-- Embedding of `DomainManager.check_status`: `none` models a request
exception. Only a 200 response has its body parsed for `<link>` tags whose
`href` contains `autoindex.css` (label "index of"); every other status code
is returned as its decimal string, body unexamined. -/
def check_status (resp : Option HttpResponse) : Option String :=
  match resp with
  | none => none
  | some response =>
    if response.status = 200 then
      if response.linkHrefs.any (fun href => containsSub href "autoindex.css") then
        some "index of"
      else some (toString response.status)
    else some (toString response.status)

/-- Counterexample to C5 as stated: a 403 response whose body references
`/css/autoindex.css` is labelled "403", not "index of" — the body is only
inspected when the status code is 200, so the "index of" label is not
applied regardless of the numeric status code. -/
theorem status_label_counterexample :
    check_status (some ⟨403, ["/css/autoindex.css"]⟩) = some "403" ∧
    check_status (some ⟨403, ["/css/autoindex.css"]⟩) ≠ some "index of" := by
  decide

/-- C5 (amended): for a 200 response, the label is "index of" exactly when
some link `href` contains `autoindex.css`, else "200"; for any non-200
response the label is the status code as a string, the body unexamined;
a transport error yields no label. -/
theorem status_label_amended (r : HttpResponse) :
    (r.status = 200 →
      check_status (some r) =
        (if r.linkHrefs.any (fun href => containsSub href "autoindex.css") then some "index of"
         else some (toString r.status))) ∧
    (r.status ≠ 200 → check_status (some r) = some (toString r.status)) ∧
    check_status none = none := by
  refine ⟨fun h => ?_, fun h => ?_, rfl⟩ <;> simp [check_status, h]

/-- Witness for C5 (amended) at concrete responses: a 200 response with an
autoindex stylesheet link is labelled "index of". -/
theorem status_label_amended_witness :
    check_status (some ⟨200, ["/css/autoindex.css"]⟩) = some "index of" := by
  have h := (status_label_amended ⟨200, ["/css/autoindex.css"]⟩).1 rfl
  rw [h]
  decide

/-- Embedding of the inner merge loop of `check_domain_statuses`: set the
`http_status` component of every status tuple whose domain name matches. -/
def update_domain_status (sts : List StatusTuple) (domain : String) (status : Option String) :
    List StatusTuple :=
  sts.map (fun t => if t.1 = domain then (t.1, t.2.1, t.2.2.1, status) else t)

/-- Embedding of the zip-then-merge of `check_domain_statuses`: pair the
task-order domain list with the given result list (the sampled labels in
completion order, as produced by `asyncio.as_completed`) and apply each
pair. -/
def merge_statuses (doms : List String) (results : List (Option String))
    (sts : List StatusTuple) : List StatusTuple :=
  (doms.zip results).foldl (fun acc pr => update_domain_status acc pr.1 pr.2) sts

/-- Sampled labels in task order: one `check_status` task per domain in
`direct_domains ++ healthy_domains`, in that order. -/
def task_results (env : Env) (st : CheckerState) : List (Option String) :=
  (st.direct_domains ++ st.healthy_domains).map env.sample

/-- Embedding of `DomainStatusChecker.check_domain_statuses`: the sampler
phase runs over `direct_domains ++ healthy_domains` only; `results` is the
label list in completion order (any permutation of `task_results`), zipped
against the task-order domain list. -/
def check_domain_statuses (st : CheckerState) (results : List (Option String)) : CheckerState :=
  { st with domain_statuses :=
      merge_statuses (st.direct_domains ++ st.healthy_domains) results st.domain_statuses }

/-- Helper: every tuple after one merge step comes from a tuple of the
input list with the same domain, status and IP, with its `http_status`
either untouched or rewritten because the domain name matched. -/
theorem mem_update_domain_status (sts : List StatusTuple) (dm : String) (s : Option String)
    (t : StatusTuple) (h : t ∈ update_domain_status sts dm s) :
    ∃ t0 ∈ sts, t.1 = t0.1 ∧ t.2.1 = t0.2.1 ∧ t.2.2.1 = t0.2.2.1 ∧
      (t.2.2.2 = t0.2.2.2 ∨ t.1 = dm) := by
  rcases List.mem_map.mp h with ⟨t0, ht0, heq⟩
  refine ⟨t0, ht0, ?_⟩
  by_cases hd : t0.1 = dm
  · rw [if_pos hd] at heq
    subst heq
    exact ⟨rfl, rfl, rfl, Or.inr hd⟩
  · rw [if_neg hd] at heq
    subst heq
    exact ⟨rfl, rfl, rfl, Or.inl rfl⟩

/-- Helper: the merge fold only rewrites `http_status`, and only for
tuples whose domain name occurs among the merged pairs. -/
theorem mem_foldl_update (pairs : List (String × Option String)) (sts : List StatusTuple)
    (t : StatusTuple)
    (h : t ∈ pairs.foldl (fun acc pr => update_domain_status acc pr.1 pr.2) sts) :
    ∃ t0 ∈ sts, t.1 = t0.1 ∧ t.2.1 = t0.2.1 ∧ t.2.2.1 = t0.2.2.1 ∧
      (t.2.2.2 = t0.2.2.2 ∨ t.1 ∈ pairs.map Prod.fst) := by
  induction pairs generalizing sts with
  | nil => exact ⟨t, h, rfl, rfl, rfl, Or.inl rfl⟩
  | cons p ps ih =>
    rw [List.foldl_cons] at h
    obtain ⟨t1, ht1, e1, e2, e3, e4⟩ := ih _ h
    obtain ⟨t0, ht0, f1, f2, f3, f4⟩ := mem_update_domain_status _ _ _ _ ht1
    refine ⟨t0, ht0, e1.trans f1, e2.trans f2, e3.trans f3, ?_⟩
    simp only [List.map_cons]
    rcases e4 with e4 | e4
    · rcases f4 with f4 | f4
      · exact Or.inl (e4.trans f4)
      · exact Or.inr (by rw [e1, f4]; exact List.mem_cons_self _ _)
    · exact Or.inr (List.mem_cons_of_mem _ e4)

/-- Helper: `merge_statuses` preserves domain, status and IP of every
tuple, and rewrites `http_status` only for tuples whose domain is among
the sampled domains. -/
theorem mem_merge_statuses (doms : List String) (results : List (Option String))
    (sts : List StatusTuple) (t : StatusTuple) (h : t ∈ merge_statuses doms results sts) :
    ∃ t0 ∈ sts, t.1 = t0.1 ∧ t.2.1 = t0.2.1 ∧ t.2.2.1 = t0.2.2.1 ∧
      (t.2.2.2 = t0.2.2.2 ∨ t.1 ∈ doms) := by
  obtain ⟨t0, ht0, e1, e2, e3, e4⟩ := mem_foldl_update _ _ _ h
  refine ⟨t0, ht0, e1, e2, e3, ?_⟩
  rcases e4 with e4 | e4
  · exact Or.inl e4
  · rcases List.mem_map.mp e4 with ⟨pr, hpr, hfst⟩
    exact Or.inr (hfst ▸ (List.of_mem_zip hpr).1)

/-- Helper: a domain is classified "No Ping" exactly when its DNS
resolution fails. -/
theorem classify_eq_no_ping (env : Env) (d : String) :
    classify env d = "No Ping" ↔ env.resolveIP d = none := by
  constructor
  · intro hcl
    cases henv : env.resolveIP d with
    | none => rfl
    | some ip =>
      exfalso
      unfold classify at hcl
      simp only [henv] at hcl
      split_ifs at hcl <;> exact absurd hcl (by decide)
  · intro hnone
    unfold classify
    rw [hnone]

/-- C4: after classification and the sampling merge, every status tuple
satisfies: the resolved IP is absent iff the classification is "No Ping"
(the code's name for Unresolvable), and the `http_status` field is
populated only for tuples classified "Direct" or "Healthy" — whatever the
completion-order result list was. -/
theorem outcome_field_invariants (env : Env) (results : List (Option String)) (t : StatusTuple)
    (h : t ∈ (check_domain_statuses (check_domains env) results).domain_statuses) :
    (t.2.2.1 = none ↔ t.2.1 = "No Ping") ∧
    (t.2.2.2 ≠ none → t.2.1 = "Direct" ∨ t.2.1 = "Healthy") := by
  simp only [check_domain_statuses] at h
  obtain ⟨t0, ht0, e1, e2, e3, e4⟩ := mem_merge_statuses _ _ _ _ h
  have hstat : (check_domains env).domain_statuses =
      (domains env).map (fun x => (x, classify env x, env.resolveIP x, none)) := by
    simp [check_domains, foldl_check_single_domain, initState]
  rw [hstat] at ht0
  rcases List.mem_map.mp ht0 with ⟨x, hx, hx0⟩
  subst hx0
  simp only at e1 e2 e3 e4
  constructor
  · rw [e3, e2]
    exact ⟨fun hn => (classify_eq_no_ping env x).mpr hn, fun hn => (classify_eq_no_ping env x).mp hn⟩
  · intro hne
    rcases e4 with e4 | e4
    · exact absurd (e4.trans rfl) hne
    · rw [List.mem_append] at e4
      rcases e4 with e4 | e4
      · have : (check_domains env).direct_domains =
            (domains env).filter (fun y => classify env y = "Direct") := by
          simp [check_domains, foldl_check_single_domain, initState]
        rw [this, List.mem_filter] at e4
        left
        rw [e2, ← e1]
        exact of_decide_eq_true e4.2
      · have : (check_domains env).healthy_domains =
            (domains env).filter (fun y => classify env y = "Healthy") := by
          simp [check_domains, foldl_check_single_domain, initState]
        rw [this, List.mem_filter] at e4
        right
        rw [e2, ← e1]
        exact of_decide_eq_true e4.2

/-- Witness for C4 at the concrete fixture, with results in task order:
`a.example`'s tuple carries an IP and a populated `http_status`, and the
invariants hold for it. -/
theorem outcome_field_invariants_witness :
    ((some "10.0.0.5" : Option String) = none ↔ "Direct" = "No Ping") ∧
    ((some "200" : Option String) ≠ none → "Direct" = "Direct" ∨ "Direct" = "Healthy") := by
  exact outcome_field_invariants testEnv [some "200", some "404"]
    ("a.example", "Direct", some "10.0.0.5", some "200") (by decide)

/-- C6 fails on the code: `check_domain_statuses` collects results in
completion order (`asyncio.as_completed`) but zips them against the
task-order domain list. With Direct+Healthy = [a.example, b.example],
task-order labels [some "200", some "404"], and b.example completing
first (completion order [some "404", some "200"]), a.example's outcome
tuple ends up carrying "404" — b.example's sampled label — although
a.example's own sample is "200". -/
theorem status_merge_completion_order_bug :
    ((check_domains testEnv).direct_domains ++ (check_domains testEnv).healthy_domains =
      ["a.example", "b.example"]) ∧
    ([some "404", some "200"] =
      [testEnv.sample "b.example", testEnv.sample "a.example"]) ∧
    testEnv.sample "a.example" = some "200" ∧
    ("a.example", "Direct", some "10.0.0.5", some "404") ∈
      (check_domain_statuses (check_domains testEnv) [some "404", some "200"]).domain_statuses := by
  decide

/-- Combined list built by `save_results`:
`self.direct_domains + self.healthy_domains`. -/
def combined_domains (st : CheckerState) : List String :=
  st.direct_domains ++ st.healthy_domains

/-- Embedding of `DomainManager.save_domains_to_file`: the file receives
one line per list element, in order (`writelines` of `f"{domain}\n"`). -/
def save_domains_to_file (ds : List String) : String :=
  String.join (ds.map (fun domain => domain ++ "\n"))

/-- C7: assuming discovery yields no duplicate names, the combined file's
line list (`combined_domains`) has no duplicates and contains a name iff
it is a Direct or a Healthy domain; Mismatched and No Ping domains are
excluded. -/
theorem combined_file_is_direct_union_healthy (env : Env) (h : (domains env).Nodup) :
    (combined_domains (check_domains env)).Nodup ∧
    (∀ d, d ∈ combined_domains (check_domains env) ↔
      d ∈ (check_domains env).direct_domains ∨ d ∈ (check_domains env).healthy_domains) ∧
    (∀ d, d ∈ (check_domains env).mismatched_domains →
      d ∉ combined_domains (check_domains env)) ∧
    (∀ d, d ∈ (check_domains env).no_ping_domains →
      d ∉ combined_domains (check_domains env)) := by
  have hD : (check_domains env).direct_domains =
      (domains env).filter (fun y => classify env y = "Direct") := by
    simp [check_domains, foldl_check_single_domain, initState]
  have hH : (check_domains env).healthy_domains =
      (domains env).filter (fun y => classify env y = "Healthy") := by
    simp [check_domains, foldl_check_single_domain, initState]
  have hM : (check_domains env).mismatched_domains =
      (domains env).filter (fun y => classify env y = "Mismatched") := by
    simp [check_domains, foldl_check_single_domain, initState]
  have hN : (check_domains env).no_ping_domains =
      (domains env).filter (fun y => classify env y = "No Ping") := by
    simp [check_domains, foldl_check_single_domain, initState]
  have hcls : ∀ s t : String, s ≠ t → ∀ d,
      d ∈ (domains env).filter (fun y => classify env y = s) →
      d ∉ (domains env).filter (fun y => classify env y = t) := by
    intro s t hst d h1 h2
    rw [List.mem_filter] at h1 h2
    exact hst ((of_decide_eq_true h1.2).symm.trans (of_decide_eq_true h2.2))
  refine ⟨?_, fun d => List.mem_append, fun d hm hc => ?_, fun d hn hc => ?_⟩
  · rw [combined_domains, hD, hH]
    exact (h.filter _).append (h.filter _) (fun d h1 h2 => hcls _ _ (by decide) d h1 h2)
  · rw [combined_domains, List.mem_append, hD, hH] at hc
    rw [hM] at hm
    rcases hc with hc | hc
    · exact hcls _ _ (by decide) d hm hc
    · exact hcls _ _ (by decide) d hm hc
  · rw [combined_domains, List.mem_append, hD, hH] at hc
    rw [hN] at hn
    rcases hc with hc | hc
    · exact hcls _ _ (by decide) d hn hc
    · exact hcls _ _ (by decide) d hn hc

/-- Witness for C7 at the concrete fixture: the combined list is
duplicate-free and excludes the mismatched domain `d.example`. -/
theorem combined_file_is_direct_union_healthy_witness :
    (combined_domains (check_domains testEnv)).Nodup ∧
    "d.example" ∉ combined_domains (check_domains testEnv) := by
  have h := combined_file_is_direct_union_healthy testEnv (by decide)
  exact ⟨h.1, h.2.2.1 "d.example" (by decide)⟩

/-- World state for the probe `save_file_and_upload`: the set of existing
filesystem paths (directories and files alike), whether the marker write
raises (`open`/`write` failure), whether the raising write had already
created the file, and the `curl` exit code. -/
structure ProbeWorld where
  files : List String
  writeRaises : Bool
  createdBeforeRaise : Bool
  curlExitCode : Nat
deriving Repr, DecidableEq

/-- Model of `os.remove`. -/
def removeFile (files : List String) (p : String) : List String :=
  files.filter (fun q => q ≠ p)

/-- Embedding of `DomainStatusChecker.save_file_and_upload` as a state
transition on the path set, returning the Python return value and the
paths existing afterwards. Paths: no root or root missing → `false`, no
write; write raises → `except` branch removes the marker if it exists,
returns `false`; otherwise curl exit 0 → remove marker, `true`; curl
nonzero → remove marker, `false`. -/
def save_file_and_upload (w : ProbeWorld) (_domain : String) (domain_path : Option String) :
    Bool × List String :=
  match domain_path with
  | some dp =>
    if dp ∈ w.files then
      let file_path := dp ++ "/mismatch.txt"
      if w.writeRaises then
        let files1 := if w.createdBeforeRaise then file_path :: w.files else w.files
        (false, if file_path ∈ files1 then removeFile files1 file_path else files1)
      else
        let files1 := file_path :: w.files
        if w.curlExitCode = 0 then (true, removeFile files1 file_path)
        else (false, removeFile files1 file_path)
    else (false, w.files)
  | none => (false, w.files)

/-- C8: the probe cleans up on every exit path — if the marker was not
present beforehand it is not present afterwards (and whenever the
document root exists the marker is absent afterwards unconditionally) —
and it returns `true` exactly when the root was given and exists, the
write did not raise, and the curl transfer exited 0; on every failure it
returns `false`. -/
theorem probe_cleanup_and_failure (w : ProbeWorld) (domain : String)
    (domain_path : Option String) :
    (∀ dp, domain_path = some dp → (dp ++ "/mismatch.txt") ∉ w.files →
      (dp ++ "/mismatch.txt") ∉ (save_file_and_upload w domain domain_path).2) ∧
    (∀ dp, domain_path = some dp → dp ∈ w.files →
      (dp ++ "/mismatch.txt") ∉ (save_file_and_upload w domain domain_path).2) ∧
    ((save_file_and_upload w domain domain_path).1 = true ↔
      ∃ dp, domain_path = some dp ∧ dp ∈ w.files ∧
        w.writeRaises = false ∧ w.curlExitCode = 0) := by
  cases domain_path with
  | none => simp [save_file_and_upload]
  | some dp =>
    by_cases hroot : dp ∈ w.files
    · by_cases hwr : w.writeRaises
      · by_cases hcr : w.createdBeforeRaise <;>
          by_cases hm : (dp ++ "/mismatch.txt") ∈ w.files <;>
            simp [save_file_and_upload, removeFile, hroot, hwr, hcr, hm, List.mem_filter]
      · by_cases hcurl : w.curlExitCode = 0 <;>
          simp [save_file_and_upload, removeFile, hroot, hwr, hcurl, List.mem_filter]
    · simp [save_file_and_upload, hroot]

/-- Witness for C8: a concrete successful probe (root exists, write ok,
curl exit 0) leaves no marker behind and returns `true`. -/
theorem probe_cleanup_and_failure_witness :
    ("/home/b/public_html/mismatch.txt" ∉
      (save_file_and_upload ⟨["/home/b/public_html"], false, false, 0⟩ "b.example"
        (some "/home/b/public_html")).2) ∧
    (save_file_and_upload ⟨["/home/b/public_html"], false, false, 0⟩ "b.example"
        (some "/home/b/public_html")).1 = true := by
  have h := probe_cleanup_and_failure ⟨["/home/b/public_html"], false, false, 0⟩ "b.example"
    (some "/home/b/public_html")
  exact ⟨h.1 "/home/b/public_html" rfl (by decide),
    h.2.2.mpr ⟨"/home/b/public_html", rfl, by decide, rfl, rfl⟩⟩

/-- Result of the top-level `main`: the process exit code (asyncio.run of
a function that only ever `return`s exits 0; no `sys.exit` is reached from
`main`), whether the fatal "No domains were found." error was reported
before an early return, and the final checker state when the pipeline
ran. -/
structure MainResult where
  exitCode : Nat
  fatalNoDomains : Bool
  finalState : Option CheckerState
deriving Repr

/-- Embedding of `main`: when `domain_paths` is empty, report the fatal
discovery error and return early (exit code 0, since `main` merely
`return`s); otherwise run `check_domains`, then `check_domain_statuses`
with the completion-order result list, then `save_results`, and exit 0 —
no per-domain outcome influences the exit code. -/
def main (env : Env) (results : List (Option String)) : MainResult :=
  if env.domain_paths.isEmpty then
    { exitCode := 0, fatalNoDomains := true, finalState := none }
  else
    { exitCode := 0, fatalNoDomains := false,
      finalState := some (check_domain_statuses (check_domains env) results) }

/-- C9: the run signals failure — a non-zero exit code or the fatal
"no domains" report with early return — exactly when discovery yields
zero domains; and the exit code itself is always 0, so per-domain
resolution, probe or sampling failures never change the exit status. -/
theorem exit_behavior (env : Env) (results : List (Option String)) :
    (((main env results).exitCode ≠ 0 ∨ (main env results).fatalNoDomains = true) ↔
      env.domain_paths = []) ∧
    (main env results).exitCode = 0 := by
  by_cases h : env.domain_paths.isEmpty <;>
    simp_all [main, List.isEmpty_iff]

/-- Witness for C9: a nonempty concrete discovery yields exit code 0 with
no fatal report; an empty discovery yields the fatal report, still with
exit code 0. -/
theorem exit_behavior_witness :
    (main testEnv []).exitCode = 0 ∧ (main testEnv []).fatalNoDomains = false ∧
    (main { testEnv with domain_paths := [] } []).fatalNoDomains = true ∧
    (main { testEnv with domain_paths := [] } []).exitCode = 0 := by
  refine ⟨(exit_behavior testEnv []).2, by decide, by decide,
    (exit_behavior { testEnv with domain_paths := [] } []).2⟩

/-- Steps of `DomainManager.__init__`, in source order:
`create_transfer_directory`, `get_server_ip`, `check_control_panel`,
`get_domains`. -/
inductive InitAction where
  | createTransferDir
  | resolveServerIP
  | checkPanel
  | discoverDomains
deriving Repr, DecidableEq

/-- Outcome of constructing `DomainManager`: the completed init steps in
order, and (when no exception escaped) the resulting `(server_ip,
domain_paths)` state. -/
structure InitResult where
  trace : List InitAction
  manager : Option (String × List (String × Option String))
deriving Repr, DecidableEq

/-- Embedding of `DomainManager.get_server_ip`: `socket.gethostbyname`
on the local hostname with NO surrounding try/except — a resolver
exception propagates to the caller unchanged. -/
def get_server_ip (resolver : String → Except Unit String) (hostname : String) :
    Except Unit String :=
  resolver hostname

/-- Embedding of `DomainManager.get_domain_ip`: the per-domain resolver
call IS wrapped in try/except (`socket.gaierror` → log and return
`None`), so a failure is absorbed into an absent IP. -/
def get_domain_ip (resolver : String → Except Unit String) (domain : String) : Option String :=
  match resolver domain with
  | .ok ip => some ip
  | .error _ => none

/-- Embedding of `DomainManager.__init__`: create the transfer directory,
resolve the server's own IP (unhandled on failure: the constructor
aborts, and neither `check_control_panel` nor `get_domains` runs), then
identify the panel and discover domains. -/
def domain_manager_init (resolver : String → Except Unit String) (hostname : String)
    (discovered : List (String × Option String)) : InitResult :=
  match get_server_ip resolver hostname with
  | .error _ => { trace := [.createTransferDir], manager := none }
  | .ok ip =>
    { trace := [.createTransferDir, .resolveServerIP, .checkPanel, .discoverDomains],
      manager := some (ip, discovered) }

/-- C10: when resolving the local hostname fails at startup, the
exception escapes `DomainManager.__init__` — no manager state is
produced and domain discovery never runs — whereas a per-domain
resolution failure is handled and merely yields an absent IP. -/
theorem startup_resolution_unhandled (resolver : String → Except Unit String)
    (hostname : String) (discovered : List (String × Option String))
    (h : resolver hostname = .error ()) :
    (domain_manager_init resolver hostname discovered).manager = none ∧
    InitAction.discoverDomains ∉ (domain_manager_init resolver hostname discovered).trace ∧
    (∀ d, resolver d = .error () → get_domain_ip resolver d = none) := by
  refine ⟨?_, ?_, fun d hd => ?_⟩
  · simp [domain_manager_init, get_server_ip, h]
  · simp [domain_manager_init, get_server_ip, h]
  · simp [get_domain_ip, hd]

/-- Witness for C10: a resolver that always fails aborts the constructor
before discovery. -/
theorem startup_resolution_unhandled_witness :
    (domain_manager_init (fun _ => .error ()) "server1" [("a.example", none)]).manager = none ∧
    InitAction.discoverDomains ∉
      (domain_manager_init (fun _ => .error ()) "server1" [("a.example", none)]).trace := by
  have h := startup_resolution_unhandled (fun _ => .error ()) "server1" [("a.example", none)] rfl
  exact ⟨h.1, h.2.1⟩

end DomainChecker

